import Mathlib

/-!
Verification of the HopOff proximity-alarm core against its specification.

The definitions below are a shallow embedding of the TypeScript sources:
  - src/unnamed/part_000 (src/utils): calculateDistance (Haversine)
  - src/services/AlarmManager.ts: AlarmManagerImpl
  - src/services/BackgroundLocationTask.ts: performAlarmCheck / removePersistedAlarm
  - src/services/GeofencingService.ts: the geofencing task handler and removeGeofence
  - FallbackLocationServiceImpl: polling intervals and error policy

JavaScript numbers are modelled as real numbers; fallible operations return
explicit error components; the AsyncStorage value under the key
"hopoff_active_alarms" is modelled as a list of alarms threaded through the
state.
-/

namespace HopOff

noncomputable section

open Classical

/-- Geographic coordinate (src/types/index.ts, interface Coordinate). -/
structure Coordinate where
  latitude : ℝ
  longitude : ℝ

/-- JavaScript Math.atan2 on real arguments (quadrant-correct arctangent). -/
def atan2 (y x : ℝ) : ℝ :=
  if 0 < x then Real.arctan (y / x)
  else if x < 0 then
    (if 0 ≤ y then Real.arctan (y / x) + Real.pi
     else Real.arctan (y / x) - Real.pi)
  else
    (if 0 < y then Real.pi / 2
     else if y < 0 then -(Real.pi / 2)
     else 0)

/-- Haversine great-circle distance in metres (src/utils calculateDistance,
Earth radius 6,371,000 m). -/
def calculateDistance (a b : Coordinate) : ℝ :=
  let R : ℝ := 6371000
  let phi1 := a.latitude * Real.pi / 180
  let phi2 := b.latitude * Real.pi / 180
  let dphi := (b.latitude - a.latitude) * Real.pi / 180
  let dlam := (b.longitude - a.longitude) * Real.pi / 180
  let h := Real.sin (dphi / 2) * Real.sin (dphi / 2) +
    Real.cos phi1 * Real.cos phi2 * (Real.sin (dlam / 2) * Real.sin (dlam / 2))
  let c := 2 * atan2 (Real.sqrt h) (Real.sqrt (1 - h))
  R * c

/-- The haversine formula is symmetric in its two endpoints. -/
theorem calculateDistance_symm (a b : Coordinate) :
    calculateDistance a b = calculateDistance b a := by
  unfold calculateDistance
  have hphi : Real.sin ((a.latitude - b.latitude) * Real.pi / 180 / 2) *
      Real.sin ((a.latitude - b.latitude) * Real.pi / 180 / 2) =
      Real.sin ((b.latitude - a.latitude) * Real.pi / 180 / 2) *
      Real.sin ((b.latitude - a.latitude) * Real.pi / 180 / 2) := by
    have h1 : (a.latitude - b.latitude) * Real.pi / 180 / 2 =
        -((b.latitude - a.latitude) * Real.pi / 180 / 2) := by ring
    rw [h1, Real.sin_neg]
    ring
  have hlam : Real.sin ((a.longitude - b.longitude) * Real.pi / 180 / 2) *
      Real.sin ((a.longitude - b.longitude) * Real.pi / 180 / 2) =
      Real.sin ((b.longitude - a.longitude) * Real.pi / 180 / 2) *
      Real.sin ((b.longitude - a.longitude) * Real.pi / 180 / 2) := by
    have h1 : (a.longitude - b.longitude) * Real.pi / 180 / 2 =
        -((b.longitude - a.longitude) * Real.pi / 180 / 2) := by ring
    rw [h1, Real.sin_neg]
    ring
  simp only []
  rw [hphi, hlam]
  ring_nf

/-- The haversine distance from a point to itself is zero. -/
theorem calculateDistance_self (a : Coordinate) :
    calculateDistance a a = 0 := by
  unfold calculateDistance atan2
  simp only [sub_self, zero_mul, zero_div, Real.sin_zero, mul_zero, zero_add,
    add_zero, Real.sqrt_zero, sub_zero, Real.sqrt_one]
  rw [if_pos (by norm_num : (0:ℝ) < 1)]
  simp [Real.arctan_zero]

/-! ## Data model (src/types/index.ts) -/

/-- Destination record (interface Destination); timestamps are ISO strings. -/
structure Destination where
  id : String
  name : String
  coordinate : Coordinate
  address : Option String
  createdAt : String

/-- Alarm settings (interface AlarmSettings). -/
structure AlarmSettings where
  triggerRadius : ℝ
  vibrationEnabled : Bool
  persistentNotification : Bool

/-- Active alarm record (interface Alarm). -/
structure Alarm where
  id : String
  destination : Destination
  settings : AlarmSettings
  geofenceId : Option String
  isActive : Bool
  createdAt : String

/-- A TypeScript Partial of AlarmSettings: each field optionally present. -/
structure AlarmSettingsPatch where
  triggerRadius : Option ℝ
  vibrationEnabled : Option Bool
  persistentNotification : Option Bool

/-- Object-spread merge of a partial settings object over full settings
(the expression with braces and dots in updateAlarmSettings). -/
def mergeSettings (s : AlarmSettings) (p : AlarmSettingsPatch) : AlarmSettings :=
  { triggerRadius := p.triggerRadius.getD s.triggerRadius
    vibrationEnabled := p.vibrationEnabled.getD s.vibrationEnabled
    persistentNotification := p.persistentNotification.getD s.persistentNotification }

/-- Errors thrown by AlarmManagerImpl, tagged with the spec taxonomy
(InvalidInput / NotFound) and carrying the thrown Error message. -/
inductive AlarmError where
  | invalidInput (msg : String)
  | notFound (msg : String)
deriving DecidableEq

/-- Result type of createAlarm (interface CreateAlarmResult). -/
structure CreateAlarmResult where
  alarm : Alarm
  isExisting : Bool
  message : Option String

/-- State owned by AlarmManagerImpl: the in-memory Map values in insertion
order, plus the AsyncStorage snapshot under the key "hopoff_active_alarms". -/
structure ManagerState where
  activeAlarms : List Alarm
  persisted : List Alarm

/-! ## AlarmManagerImpl (src/services/AlarmManager.ts) -/

/-- DUPLICATE_LOCATION_THRESHOLD (50 m). -/
def DUPLICATE_LOCATION_THRESHOLD : ℝ := 50

/-- The JavaScript expression radius || DUPLICATE_LOCATION_THRESHOLD: an
absent radius or the falsy number 0 both select the 50 m threshold. -/
def resolveThreshold (radius : Option ℝ) : ℝ :=
  match radius with
  | none => DUPLICATE_LOCATION_THRESHOLD
  | some r => if r = 0 then DUPLICATE_LOCATION_THRESHOLD else r

/-- Loop body of hasGeofenceAtLocation: scan the active alarms and return
true on the first one whose destination is within the threshold. -/
def hasGeofenceWithin (c : Coordinate) (threshold : ℝ) : List Alarm → Bool
  | [] => false
  | a :: rest =>
    if calculateDistance c a.destination.coordinate ≤ threshold then true
    else hasGeofenceWithin c threshold rest

/-- AlarmManagerImpl.hasGeofenceAtLocation. -/
def hasGeofenceAtLocation (alarms : List Alarm) (c : Coordinate)
    (radius : Option ℝ) : Bool :=
  hasGeofenceWithin c (resolveThreshold radius) alarms

/-- Loop body of getAlarmAtLocation: return the first active alarm whose
destination is within the threshold, if any. -/
def findAlarmWithin (c : Coordinate) (threshold : ℝ) : List Alarm → Option Alarm
  | [] => none
  | a :: rest =>
    if calculateDistance c a.destination.coordinate ≤ threshold then some a
    else findAlarmWithin c threshold rest

/-- AlarmManagerImpl.getAlarmAtLocation. -/
def getAlarmAtLocation (alarms : List Alarm) (c : Coordinate)
    (radius : Option ℝ) : Option Alarm :=
  findAlarmWithin c (resolveThreshold radius) alarms

/-- AlarmManagerImpl.validateAlarmSettings: throws when the trigger radius is
outside [50, 2000]. -/
def validateAlarmSettings (settings : AlarmSettings) : Option AlarmError :=
  if settings.triggerRadius < 50 ∨ settings.triggerRadius > 2000 then
    some (.invalidInput "Trigger radius must be between 50 and 2000 meters")
  else none

/-- AlarmManagerImpl.createAlarm.  freshId and now stand for the generated
alarm id and the creation timestamp; geofenceArm is the outcome of the
supplementary locationManager.setupGeofence call inside
setupLocationMonitoring (some id on success, none when arming failed and was
swallowed).  Returns the new state plus the result or the thrown error. -/
def createAlarm (freshId now : String) (geofenceArm : Option String)
    (s : ManagerState) (destination : Destination) (settings : AlarmSettings) :
    ManagerState × Except AlarmError CreateAlarmResult :=
  match getAlarmAtLocation s.activeAlarms destination.coordinate none with
  | some existingAlarm =>
    (s, .ok
      { alarm := existingAlarm
        isExisting := true
        message := some ("An alarm already exists near this location: \"" ++
          existingAlarm.destination.name ++ "\"") })
  | none =>
    match validateAlarmSettings settings with
    | some e => (s, .error e)
    | none =>
      let alarm : Alarm :=
        { id := freshId
          destination := destination
          settings := settings
          geofenceId := none
          isActive := true
          createdAt := now }
      let active1 := s.activeAlarms ++ [alarm]
      match geofenceArm with
      | some gid =>
        let withGeo := fun a : Alarm =>
          if a.id == freshId then { a with geofenceId := some gid } else a
        let active2 := active1.map withGeo
        ({ activeAlarms := active2, persisted := active2 },
          .ok
            { alarm := { alarm with geofenceId := some gid }
              isExisting := false
              message := none })
      | none =>
        ({ activeAlarms := active1, persisted := active1 },
          .ok { alarm := alarm, isExisting := false, message := none })

/-- AlarmManagerImpl.triggerAlarm.  notifyOk records whether the
notificationManager.showAlarmNotification call resolves (true) or rejects
(false); the source catches and logs a rejection and continues, so the
returned state does not depend on it.  The second component is the thrown
error, if any. -/
def triggerAlarm (_notifyOk : Bool) (s : ManagerState) (alarm : Alarm) :
    ManagerState × Option AlarmError :=
  match s.activeAlarms.find? (fun a => a.id == alarm.id) with
  | none =>
    (s, some (.notFound "Cannot trigger alarm: no matching active alarm found"))
  | some _ =>
    let active := s.activeAlarms.filter (fun a => a.id != alarm.id)
    ({ activeAlarms := active, persisted := active }, none)

/-- AlarmManagerImpl.updateAlarmSettings: merge, validate, store, persist.
Returns the state after the call together with the thrown error, if any. -/
def updateAlarmSettings (s : ManagerState) (alarmId : String)
    (patch : AlarmSettingsPatch) : ManagerState × Option AlarmError :=
  match s.activeAlarms.find? (fun a => a.id == alarmId) with
  | none => (s, some (.notFound ("No active alarm found with ID: " ++ alarmId)))
  | some alarm =>
    let updatedSettings := mergeSettings alarm.settings patch
    match validateAlarmSettings updatedSettings with
    | some e => (s, some e)
    | none =>
      let active := s.activeAlarms.map (fun a =>
        if a.id == alarmId then { a with settings := updatedSettings } else a)
      ({ activeAlarms := active, persisted := active }, none)

/-! ## BackgroundLocationTask (src/services/BackgroundLocationTask.ts)

The background task reads the persisted alarms under the same storage key
the manager writes ("hopoff_active_alarms") and edits that storage directly;
it never touches the in-memory Map of the manager. -/

/-- removePersistedAlarm: re-read storage, filter out the id, write back. -/
def removePersistedAlarm (storage : List Alarm) (alarmId : String) :
    List Alarm :=
  storage.filter (fun a => a.id != alarmId)

/-- The per-alarm loop of performAlarmCheck over the snapshot read at entry.
For each alarm within its trigger radius the task itself shows the alarm
notification and removes the alarm from storage.  Returns the storage after
the loop and the alarms for which showAlarmNotification was invoked. -/
def checkLoop (coord : Coordinate) :
    List Alarm → List Alarm → List Alarm × List Alarm
  | [], storage => (storage, [])
  | a :: rest, storage =>
    if calculateDistance coord a.destination.coordinate ≤
        a.settings.triggerRadius then
      let storage1 := removePersistedAlarm storage a.id
      let r := checkLoop coord rest storage1
      (r.1, a :: r.2)
    else checkLoop coord rest storage

/-- performAlarmCheck acting on the persisted alarm storage: returns the
storage after the check plus the alarms notified directly by the task. -/
def performAlarmCheck (coord : Coordinate) (storage : List Alarm) :
    List Alarm × List Alarm :=
  let alarms := storage
  if alarms.length = 0 then (storage, [])
  else checkLoop coord alarms storage

/-- Combined system state: the in-memory set of the manager and the persisted
snapshot, which the background task reads and writes independently. -/
structure SystemState where
  managerAlarms : List Alarm
  storage : List Alarm

/-- One background location fix processed by the task callback: it runs
performAlarmCheck against storage only; the in-memory set of the manager is not
consulted or modified. -/
def backgroundFix (coord : Coordinate) (s : SystemState) :
    SystemState × List Alarm :=
  let r := performAlarmCheck coord s.storage
  ({ managerAlarms := s.managerAlarms, storage := r.1 }, r.2)

/-! ## GeofencingService (src/services/GeofencingService.ts) -/

/-- An OS location region as tracked by GeofencingService. -/
structure LocRegion where
  identifier : String
  latitude : ℝ
  longitude : ℝ
  radius : ℝ

/-- The abstracted geofence event forwarded to the registered handler. -/
structure GeofenceEvent where
  geofenceId : String
  coordinate : Coordinate
  radius : ℝ
  eventType : String
  timestamp : String

/-- The event object built by the geofencing task for an enter event. -/
def mkEnterEvent (region : LocRegion) (now : String) : GeofenceEvent :=
  { geofenceId := region.identifier
    coordinate := { latitude := region.latitude, longitude := region.longitude }
    radius := region.radius
    eventType := "enter"
    timestamp := now }

/-- GeofencingService.removeGeofence restricted to its effect on the tracked
region set: deletes the id from the map (and persists the result). -/
def removeGeofence (regions : List LocRegion) (geofenceId : String) :
    List LocRegion :=
  regions.filter (fun r => r.identifier != geofenceId)

/-- The body of the geofencing task for an enter event on a region with an
identifier.  The handler is modelled by its outcome: ok, an error it threw,
or none registered.  The JavaScript body calls the handler and only then
reaches the removeGeofence line, so a synchronously thrown handler error
aborts the body before the auto-disarm.  Returns the region set after the
event and the uncaught handler error, if any. -/
def geofenceTaskOnEnter (handler : Option (GeofenceEvent → Except String Unit))
    (regions : List LocRegion) (region : LocRegion) (now : String) :
    List LocRegion × Option String :=
  match handler with
  | some h =>
    match h (mkEnterEvent region now) with
    | .error e => (regions, some e)
    | .ok _ => (removeGeofence regions region.identifier, none)
  | none => (removeGeofence regions region.identifier, none)

/-! ## FallbackLocationServiceImpl (src/unnamed/part_013) -/

/-- basePollingInterval (ms). -/
def basePollingInterval : ℝ := 30000

/-- batteryOptimizedInterval (ms). -/
def batteryOptimizedInterval : ℝ := 60000

/-- highAccuracyInterval (ms). -/
def highAccuracyInterval : ℝ := 15000

/-- FallbackLocationServiceImpl.determinePollingInterval: the interval a
polling session starts with. -/
def determinePollingInterval (settings : AlarmSettings) : ℝ :=
  let isBatteryOptimized := settings.persistentNotification = false
  if settings.triggerRadius ≤ 100 then highAccuracyInterval
  else if isBatteryOptimized then batteryOptimizedInterval
  else basePollingInterval

/-- The new-interval computation inside adaptPollingFrequency, a function of
the trigger radius of the session and the sampled distance only. -/
def adaptNewInterval (triggerRadius distance : ℝ) : ℝ :=
  if distance ≤ triggerRadius * 2 then highAccuracyInterval
  else if distance > triggerRadius * 10 then batteryOptimizedInterval
  else basePollingInterval

/-- getCurrentInterval: the simplified implementation always reports the
base interval. -/
def getCurrentInterval : ℝ := basePollingInterval

/-- FallbackLocationServiceImpl.adaptPollingFrequency: installs the new
interval only when it differs from getCurrentInterval by more than 5000 ms;
returns the interval installed on the timer of the session, or none when the
running timer is kept. -/
def adaptPollingFrequency (triggerRadius distance : ℝ) : Option ℝ :=
  let newInterval := adaptNewInterval triggerRadius distance
  if |newInterval - getCurrentInterval| > 5000 then some newInterval else none

/-- A thrown JavaScript value: an Error with a message, or anything else. -/
inductive JsError where
  | errorObj (msg : String)
  | otherValue
deriving DecidableEq

/-- Character-list version of String.startsWith for the needle. -/
def leadsWith : List Char → List Char → Bool
  | [], _ => true
  | _ :: _, [] => false
  | a :: as, b :: bs => a == b && leadsWith as bs

/-- Character-list substring search (JavaScript String.includes). -/
def containsChars (needle : List Char) : List Char → Bool
  | [] => needle.isEmpty
  | c :: rest => leadsWith needle (c :: rest) || containsChars needle rest

/-- JavaScript message.includes(needle) on lowercased message. -/
def includesSub (s needle : String) : Bool :=
  containsChars needle.toList s.toList

/-- JavaScript String.toLowerCase (ASCII-adequate for the checked words). -/
def toLowerStr (s : String) : String :=
  String.mk (s.toList.map Char.toLower)

/-- FallbackLocationServiceImpl.shouldStopOnError: stops only for messages
mentioning permission problems or disabled location services. -/
def shouldStopOnError (e : JsError) : Bool :=
  match e with
  | .errorObj msg =>
    let m := toLowerStr msg
    if includesSub m "permission" || includesSub m "unauthorized" then true
    else if includesSub m "location services" && includesSub m "disabled" then
      true
    else false
  | .otherValue => false

/-- Outcome of a checkLocation call whose location fetch threw. -/
structure FailedCheckOutcome where
  sessionStopped : Bool
  propagated : Option JsError
deriving DecidableEq

/-- The catch block of FallbackLocationServiceImpl.checkLocation for a check
that failed with error e, given the checkCount of the session before the call
(the body increments it first).  The error is logged, never rethrown; the
session is stopped only when the incremented count exceeds 10 and
shouldStopOnError holds. -/
def checkLocationFailure (e : JsError) (checkCountBefore : ℕ) :
    FailedCheckOutcome :=
  let checkCount := checkCountBefore + 1
  { sessionStopped := decide (checkCount > 10) && shouldStopOnError e
    propagated := none }

/-! ## Shared lemmas -/

/-- The hasGeofenceAtLocation scan returns true exactly when the destination of some
active alarm lies within the threshold. -/
theorem hasGeofenceWithin_eq_true_iff (c : Coordinate) (t : ℝ) :
    ∀ l : List Alarm, hasGeofenceWithin c t l = true ↔
      ∃ a ∈ l, calculateDistance c a.destination.coordinate ≤ t := by
  intro l
  induction l with
  | nil => simp [hasGeofenceWithin]
  | cons a rest ih =>
    by_cases hd : calculateDistance c a.destination.coordinate ≤ t
    · simp [hasGeofenceWithin, if_pos hd]
      exact Or.inl hd
    · rw [hasGeofenceWithin, if_neg hd, ih]
      constructor
      · rintro ⟨x, hx, hxd⟩
        exact ⟨x, List.mem_cons_of_mem a hx, hxd⟩
      · rintro ⟨x, hx, hxd⟩
        rcases List.mem_cons.mp hx with hxa | hxr
        · exact absurd (hxa ▸ hxd) hd
        · exact ⟨x, hxr, hxd⟩

/-- If some alarm lies within the threshold, the getAlarmAtLocation scan
returns an alarm from the list within the threshold. -/
theorem findAlarmWithin_of_exists (c : Coordinate) (t : ℝ) :
    ∀ l : List Alarm,
      (∃ a ∈ l, calculateDistance c a.destination.coordinate ≤ t) →
      ∃ ex, findAlarmWithin c t l = some ex ∧ ex ∈ l ∧
        calculateDistance c ex.destination.coordinate ≤ t := by
  intro l
  induction l with
  | nil => rintro ⟨x, hx, -⟩; exact absurd hx (List.not_mem_nil x)
  | cons a rest ih =>
    intro h
    by_cases hd : calculateDistance c a.destination.coordinate ≤ t
    · exact ⟨a, by rw [findAlarmWithin, if_pos hd], List.mem_cons_self a rest, hd⟩
    · obtain ⟨x, hx, hxd⟩ := h
      rcases List.mem_cons.mp hx with hxa | hxr
      · exact absurd (hxa ▸ hxd) hd
      · obtain ⟨ex, heq, hmem, hexd⟩ := ih ⟨x, hxr, hxd⟩
        exact ⟨ex, by rw [findAlarmWithin, if_neg hd, heq],
          List.mem_cons_of_mem a hmem, hexd⟩

/-- Every alarm surviving the background check loop was already in the
storage the loop started from. -/
theorem checkLoop_storage_subset (coord : Coordinate) :
    ∀ rest storage : List Alarm, ∀ b ∈ (checkLoop coord rest storage).1,
      b ∈ storage := by
  intro rest
  induction rest with
  | nil => intro storage b hb; simpa [checkLoop] using hb
  | cons a rest ih =>
    intro storage b hb
    by_cases hd : calculateDistance coord a.destination.coordinate ≤
        a.settings.triggerRadius
    · rw [checkLoop, if_pos hd] at hb
      have hb1 := ih (removePersistedAlarm storage a.id) b hb
      exact List.mem_of_mem_filter hb1
    · rw [checkLoop, if_neg hd] at hb
      exact ih storage b hb

/-- Once the background check loop triggers an alarm in the snapshot, no
alarm with that id survives in the storage it writes back. -/
theorem checkLoop_removes_triggered (coord : Coordinate) :
    ∀ rest storage : List Alarm, ∀ a ∈ rest,
      calculateDistance coord a.destination.coordinate ≤
        a.settings.triggerRadius →
      ∀ b ∈ (checkLoop coord rest storage).1, b.id ≠ a.id := by
  intro rest
  induction rest with
  | nil => intro storage a ha; exact absurd ha (List.not_mem_nil a)
  | cons x rest ih =>
    intro storage a ha hd b hb
    rcases List.mem_cons.mp ha with hax | har
    · subst hax
      rw [checkLoop, if_pos hd] at hb
      have hb1 := checkLoop_storage_subset coord rest
        (removePersistedAlarm storage a.id) b hb
      have := List.of_mem_filter hb1
      simpa [bne_iff_ne] using this
    · by_cases hx : calculateDistance coord x.destination.coordinate ≤
          x.settings.triggerRadius
      · rw [checkLoop, if_pos hx] at hb
        exact ih (removePersistedAlarm storage x.id) a har hd b hb
      · rw [checkLoop, if_neg hx] at hb
        exact ih storage a har hd b hb

/-- Every alarm of the snapshot within its trigger radius is notified by the
background check loop itself. -/
theorem checkLoop_notifies_triggered (coord : Coordinate) :
    ∀ rest storage : List Alarm, ∀ a ∈ rest,
      calculateDistance coord a.destination.coordinate ≤
        a.settings.triggerRadius →
      a ∈ (checkLoop coord rest storage).2 := by
  intro rest
  induction rest with
  | nil => intro storage a ha; exact absurd ha (List.not_mem_nil a)
  | cons x rest ih =>
    intro storage a ha hd
    rcases List.mem_cons.mp ha with hax | har
    · subst hax
      rw [checkLoop, if_pos hd]
      exact List.mem_cons_self a _
    · by_cases hx : calculateDistance coord x.destination.coordinate ≤
          x.settings.triggerRadius
      · rw [checkLoop, if_pos hx]
        exact List.mem_cons_of_mem x (ih (removePersistedAlarm storage x.id) a har hd)
      · rw [checkLoop, if_neg hx]
        exact ih storage a har hd

/-! ## Concrete fixtures -/

/-- A concrete coordinate (Rajiv Chowk, the scenario coordinate of the spec). -/
def coordDelhi : Coordinate := { latitude := 28.6139, longitude := 77.2090 }

/-- A concrete destination at that coordinate. -/
def destDelhi : Destination :=
  { id := "dest_1"
    name := "Rajiv Chowk"
    coordinate := coordDelhi
    address := none
    createdAt := "2026-01-01T00:00:00.000Z" }

/-- Concrete valid settings with a 200 m trigger radius. -/
def settings200 : AlarmSettings :=
  { triggerRadius := 200, vibrationEnabled := true, persistentNotification := true }

/-- A concrete active alarm at the fixture destination. -/
def alarmDelhi : Alarm :=
  { id := "alarm_1"
    destination := destDelhi
    settings := settings200
    geofenceId := none
    isActive := true
    createdAt := "2026-01-01T00:00:01.000Z" }

/-- A concrete manager state holding exactly the fixture alarm, with a
persisted snapshot equal to the in-memory set. -/
def stateOne : ManagerState := { activeAlarms := [alarmDelhi], persisted := [alarmDelhi] }

/-- A concrete system state where the in-memory set of the manager and the
persisted snapshot both hold exactly the fixture alarm. -/
def sysOne : SystemState := { managerAlarms := [alarmDelhi], storage := [alarmDelhi] }

/-- A concrete armed geofence region at the fixture coordinate. -/
def regionOne : LocRegion :=
  { identifier := "geofence_1", latitude := 28.6139, longitude := 77.2090,
    radius := 200 }

/-! ## Claim theorems -/

/-- Claim C9: for all coordinates a and b, calculateDistance a b equals
calculateDistance b a, and calculateDistance a a is zero, for the Haversine
distance with Earth radius 6,371,000 m. -/
theorem claim_C9_distance_symmetric_and_zero (a b : Coordinate) :
    calculateDistance a b = calculateDistance b a ∧
    calculateDistance a a = 0 :=
  ⟨calculateDistance_symm a b, calculateDistance_self a⟩

/-- Claim C10: calling hasGeofenceAtLocation with an explicit radius of 0
behaves exactly like omitting the radius, because 0 is falsy and the 50 m
DUPLICATE_LOCATION_THRESHOLD is substituted: the query answers true exactly
when the destination of some active alarm lies within 50 m of the coordinate. -/
theorem claim_C10_hasGeofence_zero_radius (alarms : List Alarm) (c : Coordinate) :
    hasGeofenceAtLocation alarms c (some 0) = hasGeofenceAtLocation alarms c none ∧
    (hasGeofenceAtLocation alarms c (some 0) = true ↔
      ∃ a ∈ alarms, calculateDistance c a.destination.coordinate ≤ 50) := by
  have hthr : resolveThreshold (some 0) = resolveThreshold none := by
    simp [resolveThreshold]
  constructor
  · unfold hasGeofenceAtLocation
    rw [hthr]
  · unfold hasGeofenceAtLocation
    rw [hthr]
    have h50 : resolveThreshold none = 50 := rfl
    rw [h50]
    exact hasGeofenceWithin_eq_true_iff c 50 alarms

/-- Claim C2, counterexample: triggering the fixture alarm against an empty
active set does not return without error — triggerAlarm throws. -/
theorem claim_C2_counterexample :
    (∀ a ∈ ({ activeAlarms := [], persisted := [] } : ManagerState).activeAlarms,
      a.id ≠ alarmDelhi.id) ∧
    (triggerAlarm true { activeAlarms := [], persisted := [] } alarmDelhi).2 ≠
      none := by
  constructor
  · intro a ha
    exact absurd ha (List.not_mem_nil a)
  · intro h
    simp only [triggerAlarm, List.find?_nil] at h
    exact Option.some_ne_none _ h

/-- Claim C2 as amended: for every alarm value whose id is not present in
the active set of the Manager, triggerAlarm throws the not-found error
"Cannot trigger alarm: no matching active alarm found" and leaves the active
set and the persisted snapshot unchanged (the returned state is the input
state), regardless of whether the notification dispatcher would succeed. -/
theorem claim_C2_triggerAlarm_missing_throws (ok : Bool) (s : ManagerState)
    (alarm : Alarm) (h : ∀ a ∈ s.activeAlarms, a.id ≠ alarm.id) :
    triggerAlarm ok s alarm =
      (s, some (.notFound "Cannot trigger alarm: no matching active alarm found")) := by
  have hf : s.activeAlarms.find? (fun a => a.id == alarm.id) = none := by
    rw [List.find?_eq_none]
    intro a ha
    simpa using h a ha
  unfold triggerAlarm
  rw [hf]

/-- Claim C2, witness: the amended theorem applied to the empty active set
and the fixture alarm. -/
theorem claim_C2_witness :
    triggerAlarm true { activeAlarms := [], persisted := [] } alarmDelhi =
      ({ activeAlarms := [], persisted := [] },
        some (.notFound "Cannot trigger alarm: no matching active alarm found")) :=
  claim_C2_triggerAlarm_missing_throws true
    { activeAlarms := [], persisted := [] } alarmDelhi
    (by intro a ha; exact absurd ha (List.not_mem_nil a))

/-- Claim C8: updateAlarmSettings on an alarm present in the active set
whose merged trigger radius lies outside [50, 2000] throws the InvalidInput
error and leaves the state (settings and persisted snapshot) unchanged, and
on an id absent from the active set throws the NotFound error. -/
theorem claim_C8_updateAlarmSettings_validation (s : ManagerState)
    (alarmId : String) (patch : AlarmSettingsPatch) :
    (∀ alarm, s.activeAlarms.find? (fun a => a.id == alarmId) = some alarm →
      ((mergeSettings alarm.settings patch).triggerRadius < 50 ∨
        (mergeSettings alarm.settings patch).triggerRadius > 2000) →
      updateAlarmSettings s alarmId patch =
        (s, some (.invalidInput "Trigger radius must be between 50 and 2000 meters"))) ∧
    (s.activeAlarms.find? (fun a => a.id == alarmId) = none →
      updateAlarmSettings s alarmId patch =
        (s, some (.notFound ("No active alarm found with ID: " ++ alarmId)))) := by
  constructor
  · intro alarm hfind hrad
    simp [updateAlarmSettings, hfind, validateAlarmSettings, hrad]
  · intro hfind
    simp [updateAlarmSettings, hfind]

/-- Claim C8, witness: updating the fixture alarm with a merged radius of
5000 throws InvalidInput and returns the unchanged state; updating a missing
id throws NotFound. -/
theorem claim_C8_witness :
    updateAlarmSettings stateOne "alarm_1"
      { triggerRadius := some 5000, vibrationEnabled := none,
        persistentNotification := none } =
      (stateOne, some (.invalidInput "Trigger radius must be between 50 and 2000 meters")) ∧
    updateAlarmSettings stateOne "alarm_9"
      { triggerRadius := some 5000, vibrationEnabled := none,
        persistentNotification := none } =
      (stateOne, some (.notFound "No active alarm found with ID: alarm_9")) := by
  constructor
  · exact (claim_C8_updateAlarmSettings_validation stateOne "alarm_1" _).1
      alarmDelhi (by rfl)
      (Or.inr (by norm_num [mergeSettings, alarmDelhi, settings200]))
  · exact (claim_C8_updateAlarmSettings_validation stateOne "alarm_9" _).2 (by rfl)

/-- Claim C3: when the destination of some active alarm is within 50 m of the
requested destination, createAlarm returns that pre-existing alarm with
isExisting = true (so its id equals the id of the pre-existing alarm), leaves the
state — and hence the active-alarm count — unchanged, and succeeds for
arbitrary settings because the duplicate check precedes settings
validation. -/
theorem claim_C3_createAlarm_duplicate_merge (freshId now : String)
    (geofenceArm : Option String) (s : ManagerState) (destination : Destination)
    (settings : AlarmSettings)
    (h : ∃ a ∈ s.activeAlarms,
      calculateDistance destination.coordinate a.destination.coordinate ≤ 50) :
    ∃ ex ∈ s.activeAlarms,
      calculateDistance destination.coordinate ex.destination.coordinate ≤ 50 ∧
      createAlarm freshId now geofenceArm s destination settings =
        (s, .ok
          { alarm := ex
            isExisting := true
            message := some ("An alarm already exists near this location: \"" ++
              ex.destination.name ++ "\"") }) := by
  obtain ⟨ex, heq, hmem, hexd⟩ := findAlarmWithin_of_exists
    destination.coordinate 50 s.activeAlarms h
  have hga : getAlarmAtLocation s.activeAlarms destination.coordinate none =
      some ex := by
    unfold getAlarmAtLocation
    have : resolveThreshold none = 50 := rfl
    rw [this, heq]
  refine ⟨ex, hmem, hexd, ?_⟩
  simp [createAlarm, hga]

/-- Claim C3, witness: the fixture state holds an alarm at the fixture
coordinate; creating an alarm at that exact coordinate with an invalid
trigger radius of 10 still succeeds and merges into the existing alarm. -/
theorem claim_C3_witness :
    ∃ ex ∈ stateOne.activeAlarms,
      calculateDistance coordDelhi ex.destination.coordinate ≤ 50 ∧
      createAlarm "alarm_2" "2026-01-02T00:00:00.000Z" none stateOne
        { id := "dest_2"
          name := "Rajiv Chowk again"
          coordinate := coordDelhi
          address := none
          createdAt := "2026-01-02T00:00:00.000Z" }
        { triggerRadius := 10, vibrationEnabled := false,
          persistentNotification := false } =
        (stateOne, .ok
          { alarm := ex
            isExisting := true
            message := some ("An alarm already exists near this location: \"" ++
              ex.destination.name ++ "\"") }) :=
  claim_C3_createAlarm_duplicate_merge "alarm_2" "2026-01-02T00:00:00.000Z" none
    stateOne
    { id := "dest_2"
      name := "Rajiv Chowk again"
      coordinate := coordDelhi
      address := none
      createdAt := "2026-01-02T00:00:00.000Z" }
    { triggerRadius := 10, vibrationEnabled := false,
      persistentNotification := false }
    ⟨alarmDelhi, List.mem_cons_self alarmDelhi [],
      by
        show calculateDistance coordDelhi coordDelhi ≤ 50
        rw [calculateDistance_self]
        norm_num⟩

/-- Claim C4: for every alarm present in the active set, triggerAlarm
removes it from the active set and from the persisted snapshot, returning no
error, whether or not the showAlarmNotification call throws — the dispatcher
failure is caught and never skips the removal and persistence steps. -/
theorem claim_C4_triggerAlarm_removes_despite_notification_failure
    (ok : Bool) (s : ManagerState) (alarm : Alarm)
    (h : alarm ∈ s.activeAlarms) :
    triggerAlarm ok s alarm =
      ({ activeAlarms := s.activeAlarms.filter (fun a => a.id != alarm.id)
         persisted := s.activeAlarms.filter (fun a => a.id != alarm.id) }, none) ∧
    (∀ b ∈ (triggerAlarm ok s alarm).1.activeAlarms, b.id ≠ alarm.id) ∧
    (∀ b ∈ (triggerAlarm ok s alarm).1.persisted, b.id ≠ alarm.id) := by
  have hsome : ∃ a, s.activeAlarms.find? (fun a => a.id == alarm.id) = some a := by
    have : (s.activeAlarms.find? (fun a => a.id == alarm.id)).isSome := by
      rw [List.find?_isSome]
      exact ⟨alarm, h, by simp⟩
    exact Option.isSome_iff_exists.mp this
  obtain ⟨found, hfound⟩ := hsome
  have heq : triggerAlarm ok s alarm =
      ({ activeAlarms := s.activeAlarms.filter (fun a => a.id != alarm.id)
         persisted := s.activeAlarms.filter (fun a => a.id != alarm.id) }, none) := by
    unfold triggerAlarm
    rw [hfound]
  refine ⟨heq, ?_, ?_⟩
  · intro b hb
    rw [heq] at hb
    simpa [bne_iff_ne] using List.of_mem_filter hb
  · intro b hb
    rw [heq] at hb
    simpa [bne_iff_ne] using List.of_mem_filter hb

/-- Claim C4, witness: triggering the fixture alarm while the notification
dispatcher throws (ok = false) still removes it from the active set and the
persisted snapshot, with no error. -/
theorem claim_C4_witness :
    triggerAlarm false stateOne alarmDelhi =
      ({ activeAlarms := [], persisted := [] }, none) := by
  have h := (claim_C4_triggerAlarm_removes_despite_notification_failure
    false stateOne alarmDelhi (List.mem_cons_self alarmDelhi [])).1
  rw [h]
  simp [stateOne]

/-- Claim C1, counterexample: a location fix at the fixture destination
triggers the fixture alarm through the background task, after which the
in-memory active set of the Manager still holds the alarm while the persisted
snapshot no longer does — the two are not equal. -/
theorem claim_C1_counterexample :
    (backgroundFix coordDelhi sysOne).1.managerAlarms ≠
      (backgroundFix coordDelhi sysOne).1.storage := by
  have hd : calculateDistance coordDelhi alarmDelhi.destination.coordinate ≤
      alarmDelhi.settings.triggerRadius := by
    show calculateDistance coordDelhi coordDelhi ≤ (200 : ℝ)
    rw [calculateDistance_self]
    norm_num
  have hstep : backgroundFix coordDelhi sysOne =
      ({ managerAlarms := [alarmDelhi], storage := [] }, [alarmDelhi]) := by
    unfold backgroundFix performAlarmCheck
    rw [if_neg (by simp [sysOne])]
    simp [sysOne, checkLoop, hd, removePersistedAlarm]
  rw [hstep]
  simp

/-- Claim C1 as amended: a fix processed by the background task that brings
an alarm of the persisted snapshot within its trigger radius is handled by
the task itself, not via AlarmManagerImpl.triggerAlarm: the task dispatches
the notification directly and removes the alarm from the persisted snapshot
through removePersistedAlarm (a second writer of the store), while the
in-memory active set of the Manager is left untouched, so whenever that alarm is
also in the set of the Manager the in-memory set and the persisted snapshot are
no longer equal after the fix. -/
theorem claim_C1_background_task_bypasses_manager (coord : Coordinate)
    (s : SystemState) (a : Alarm) (ha : a ∈ s.storage)
    (hd : calculateDistance coord a.destination.coordinate ≤
      a.settings.triggerRadius) :
    (backgroundFix coord s).1.managerAlarms = s.managerAlarms ∧
    a ∈ (backgroundFix coord s).2 ∧
    (∀ b ∈ (backgroundFix coord s).1.storage, b.id ≠ a.id) ∧
    (a ∈ s.managerAlarms →
      (backgroundFix coord s).1.managerAlarms ≠ (backgroundFix coord s).1.storage) := by
  have hne : ¬ s.storage.length = 0 := by
    intro h0
    rw [List.length_eq_zero] at h0
    rw [h0] at ha
    exact absurd ha (List.not_mem_nil a)
  have hpc : performAlarmCheck coord s.storage =
      checkLoop coord s.storage s.storage := by
    unfold performAlarmCheck
    rw [if_neg hne]
  have hbf1 : (backgroundFix coord s).1.managerAlarms = s.managerAlarms := rfl
  have hbf2 : (backgroundFix coord s).2 = (performAlarmCheck coord s.storage).2 := rfl
  have hbfs : (backgroundFix coord s).1.storage =
      (performAlarmCheck coord s.storage).1 := rfl
  have hrem : ∀ b ∈ (backgroundFix coord s).1.storage, b.id ≠ a.id := by
    intro b hb
    rw [hbfs, hpc] at hb
    exact checkLoop_removes_triggered coord s.storage s.storage a ha hd b hb
  refine ⟨hbf1, ?_, hrem, ?_⟩
  · rw [hbf2, hpc]
    exact checkLoop_notifies_triggered coord s.storage s.storage a ha hd
  · intro ham heq
    have hmem : a ∈ (backgroundFix coord s).1.storage := by
      rw [← heq, hbf1]
      exact ham
    exact hrem a hmem rfl

/-- Claim C1, witness: the amended theorem applied to the fixture system
state and a fix at the fixture coordinate. -/
theorem claim_C1_witness :
    (backgroundFix coordDelhi sysOne).1.managerAlarms = sysOne.managerAlarms ∧
    alarmDelhi ∈ (backgroundFix coordDelhi sysOne).2 ∧
    (∀ b ∈ (backgroundFix coordDelhi sysOne).1.storage, b.id ≠ alarmDelhi.id) ∧
    (alarmDelhi ∈ sysOne.managerAlarms →
      (backgroundFix coordDelhi sysOne).1.managerAlarms ≠
        (backgroundFix coordDelhi sysOne).1.storage) :=
  claim_C1_background_task_bypasses_manager coordDelhi sysOne alarmDelhi
    (List.mem_cons_self alarmDelhi [])
    (by
      show calculateDistance coordDelhi coordDelhi ≤ (200 : ℝ)
      rw [calculateDistance_self]
      norm_num)

/-- Claim C5, counterexample: when the forwarded handler throws on an
"enter" event, the region is not auto-disarmed — it stays armed (leaks) and
the error of the handler escapes the task body. -/
theorem claim_C5_counterexample :
    geofenceTaskOnEnter (some (fun _ => Except.error "handler failure"))
        [regionOne] regionOne "2026-01-01T00:00:02.000Z" =
      ([regionOne], some "handler failure") ∧
    regionOne ∈ (geofenceTaskOnEnter
      (some (fun _ => Except.error "handler failure"))
      [regionOne] regionOne "2026-01-01T00:00:02.000Z").1 := by
  constructor
  · rfl
  · simp [geofenceTaskOnEnter]

/-- Claim C5 as amended: on an "enter" event the adapter forwards the event
to the registered handler and then auto-disarms that one region; the
auto-disarm happens only when the handler returns normally — if the handler
throws, the task body aborts with that error before the removeGeofence call
and the region stays armed. -/
theorem claim_C5_geofence_enter_autodisarm
    (h : GeofenceEvent → Except String Unit) (regions : List LocRegion)
    (region : LocRegion) (now : String) :
    (h (mkEnterEvent region now) = .ok () →
      geofenceTaskOnEnter (some h) regions region now =
        (removeGeofence regions region.identifier, none) ∧
      ∀ r ∈ (geofenceTaskOnEnter (some h) regions region now).1,
        r.identifier ≠ region.identifier) ∧
    (∀ e, h (mkEnterEvent region now) = .error e →
      geofenceTaskOnEnter (some h) regions region now = (regions, some e)) := by
  constructor
  · intro hok
    have heq : geofenceTaskOnEnter (some h) regions region now =
        (removeGeofence regions region.identifier, none) := by
      simp only [geofenceTaskOnEnter, hok]
    refine ⟨heq, ?_⟩
    intro r hr
    rw [heq] at hr
    have hr1 : r ∈ List.filter
        (fun x : LocRegion => x.identifier != region.identifier) regions := hr
    have hr2 := List.of_mem_filter hr1
    simpa [bne_iff_ne] using hr2
  · intro e herr
    simp only [geofenceTaskOnEnter, herr]

/-- Claim C5, witness: the amended theorem applied to a handler that returns
normally — the fixture region is disarmed and no error escapes. -/
theorem claim_C5_witness :
    geofenceTaskOnEnter (some (fun _ => Except.ok ())) [regionOne] regionOne
        "2026-01-01T00:00:02.000Z" =
      (removeGeofence [regionOne] regionOne.identifier, none) ∧
    ∀ r ∈ (geofenceTaskOnEnter (some (fun _ => Except.ok ())) [regionOne]
      regionOne "2026-01-01T00:00:02.000Z").1,
      r.identifier ≠ regionOne.identifier :=
  (claim_C5_geofence_enter_autodisarm (fun _ => Except.ok ()) [regionOne]
    regionOne "2026-01-01T00:00:02.000Z").1 rfl

/-- Claim C6, counterexample: for a trigger radius of exactly 100 m (≤ 100)
and a sampled distance of 1500 m, the adaptive step installs the relaxed
60 s interval, not the tightened 15 s interval — a small radius does not
force 15 s regardless of distance. -/
theorem claim_C6_counterexample :
    (100 : ℝ) ≤ 100 ∧
    adaptPollingFrequency 100 1500 = some 60000 ∧
    (60000 : ℝ) ≠ 15000 := by
  refine ⟨by norm_num, ?_, by norm_num⟩
  have habs : |(60000 : ℝ) - 30000| > 5000 := by
    rw [show ((60000 : ℝ) - 30000) = 30000 by norm_num]
    rw [abs_of_pos (by norm_num : (0 : ℝ) < 30000)]
    norm_num
  simp only [adaptPollingFrequency, adaptNewInterval, getCurrentInterval,
    basePollingInterval, batteryOptimizedInterval, highAccuracyInterval]
  rw [if_neg (by norm_num : ¬ (1500 : ℝ) ≤ 100 * 2),
    if_pos (by norm_num : (1500 : ℝ) > 100 * 10)]
  rw [if_pos habs]

/-- Claim C6 as amended: a polling session starts at 15 s when the trigger
radius is at most 100 m, at 60 s when the radius exceeds 100 m and the
alarm is battery-optimized (persistentNotification false), and at the 30 s
base otherwise; on each subsequent check the interval is recomputed from the
sampled distance alone — 15 s when distance ≤ 2 × radius, 60 s when
distance > 10 × radius, and otherwise the base interval (in which case the
running timer is kept, as the new value differs from the reported current
interval by at most 5 s) — the radius having no effect on the adaptive
step. -/
theorem claim_C6_polling_interval_policy (settings : AlarmSettings)
    (radius distance : ℝ) :
    (settings.triggerRadius ≤ 100 → determinePollingInterval settings = 15000) ∧
    (¬ settings.triggerRadius ≤ 100 → settings.persistentNotification = false →
      determinePollingInterval settings = 60000) ∧
    (¬ settings.triggerRadius ≤ 100 → settings.persistentNotification = true →
      determinePollingInterval settings = 30000) ∧
    (distance ≤ radius * 2 → adaptPollingFrequency radius distance = some 15000) ∧
    (¬ distance ≤ radius * 2 → distance > radius * 10 →
      adaptPollingFrequency radius distance = some 60000) ∧
    (¬ distance ≤ radius * 2 → ¬ distance > radius * 10 →
      adaptPollingFrequency radius distance = none) := by
  refine ⟨?_, ?_, ?_, ?_, ?_, ?_⟩
  · intro hr
    simp [determinePollingInterval, highAccuracyInterval, hr]
  · intro hr hp
    simp [determinePollingInterval, batteryOptimizedInterval, hr, hp]
  · intro hr hp
    simp [determinePollingInterval, basePollingInterval, hr, hp]
  · intro hclose
    have habs : |(15000 : ℝ) - 30000| > 5000 := by
      rw [show ((15000 : ℝ) - 30000) = -15000 by norm_num]
      rw [abs_of_neg (by norm_num : (-15000 : ℝ) < 0)]
      norm_num
    simp only [adaptPollingFrequency, adaptNewInterval, getCurrentInterval,
      basePollingInterval, batteryOptimizedInterval, highAccuracyInterval]
    rw [if_pos hclose, if_pos habs]
  · intro hclose hfar
    have habs : |(60000 : ℝ) - 30000| > 5000 := by
      rw [show ((60000 : ℝ) - 30000) = 30000 by norm_num]
      rw [abs_of_pos (by norm_num : (0 : ℝ) < 30000)]
      norm_num
    simp only [adaptPollingFrequency, adaptNewInterval, getCurrentInterval,
      basePollingInterval, batteryOptimizedInterval, highAccuracyInterval]
    rw [if_neg hclose, if_pos hfar, if_pos habs]
  · intro hclose hfar
    have habs : ¬ |(30000 : ℝ) - 30000| > 5000 := by
      rw [show ((30000 : ℝ) - 30000) = 0 by norm_num]
      simp
    simp only [adaptPollingFrequency, adaptNewInterval, getCurrentInterval,
      basePollingInterval, batteryOptimizedInterval, highAccuracyInterval]
    rw [if_neg hclose, if_neg hfar, if_neg habs]

/-- Claim C6, witness: the amended policy at concrete radii and distances —
session start at radius 100 (15 s), radius 200 battery-optimized (60 s),
radius 200 not optimized (30 s); adaptive step at radius 200 with distances
350 m (15 s), 2500 m (60 s) and 1000 m (timer kept). -/
theorem claim_C6_witness :
    determinePollingInterval
      { triggerRadius := 100, vibrationEnabled := true,
        persistentNotification := true } = 15000 ∧
    determinePollingInterval
      { triggerRadius := 200, vibrationEnabled := true,
        persistentNotification := false } = 60000 ∧
    determinePollingInterval
      { triggerRadius := 200, vibrationEnabled := true,
        persistentNotification := true } = 30000 ∧
    adaptPollingFrequency 200 350 = some 15000 ∧
    adaptPollingFrequency 200 2500 = some 60000 ∧
    adaptPollingFrequency 200 1000 = none :=
  ⟨(claim_C6_polling_interval_policy
      { triggerRadius := 100, vibrationEnabled := true,
        persistentNotification := true } 0 0).1 (by norm_num),
    (claim_C6_polling_interval_policy
      { triggerRadius := 200, vibrationEnabled := true,
        persistentNotification := false } 0 0).2.1 (by norm_num) rfl,
    (claim_C6_polling_interval_policy
      { triggerRadius := 200, vibrationEnabled := true,
        persistentNotification := true } 0 0).2.2.1 (by norm_num) rfl,
    (claim_C6_polling_interval_policy
      { triggerRadius := 0, vibrationEnabled := true,
        persistentNotification := true } 200 350).2.2.2.1 (by norm_num),
    (claim_C6_polling_interval_policy
      { triggerRadius := 0, vibrationEnabled := true,
        persistentNotification := true } 200 2500).2.2.2.2.1
      (by norm_num) (by norm_num),
    (claim_C6_polling_interval_policy
      { triggerRadius := 0, vibrationEnabled := true,
        persistentNotification := true } 200 1000).2.2.2.2.2
      (by norm_num) (by norm_num)⟩

/-- The getCurrentLocation permission error message (LocationManager). -/
def permissionMsg : String :=
  "Location permission is required to get current location"

/-- The location-services-disabled error message (LocationManager). -/
def servicesDisabledMsg : String :=
  "Location services are disabled. Please enable them in settings."

/-- The timeout error message (LocationManager). -/
def timeoutMsg : String := "Location request timed out. Please try again."

/-- Claim C7, counterexample: a permission-denied error on the first
check (checkCount 0 before the call) is not terminal — the session is not
stopped, even though shouldStopOnError classifies the error as terminal —
and the error is swallowed rather than surfaced upward. -/
theorem claim_C7_counterexample :
    shouldStopOnError (.errorObj permissionMsg) = true ∧
    (checkLocationFailure (.errorObj permissionMsg) 0).sessionStopped = false ∧
    (checkLocationFailure (.errorObj permissionMsg) 0).propagated = none := by
  refine ⟨by decide, ?_, rfl⟩
  show (decide (0 + 1 > 10) && shouldStopOnError (.errorObj permissionMsg)) = false
  rfl

/-- Claim C7 as amended: a failing location check never surfaces its error
upward (checkLocation swallows it); the session is stopped exactly when the
incremented check count exceeds 10 and the lowercased error message contains
"permission" or "unauthorized", or both "location services" and "disabled" —
so permission-denied and services-disabled errors are terminal only after
more than ten checks, and transient errors (e.g. timeouts) never stop the
session. -/
theorem claim_C7_checkLocation_error_policy (e : JsError) (n : ℕ) :
    (checkLocationFailure e n).propagated = none ∧
    ((checkLocationFailure e n).sessionStopped = true ↔
      (n + 1 > 10 ∧ shouldStopOnError e = true)) ∧
    shouldStopOnError (.errorObj permissionMsg) = true ∧
    shouldStopOnError (.errorObj servicesDisabledMsg) = true ∧
    shouldStopOnError (.errorObj timeoutMsg) = false := by
  refine ⟨rfl, ?_, by decide, by decide, by decide⟩
  simp [checkLocationFailure, Bool.and_eq_true, decide_eq_true_eq]

/-- Claim C7, witness: the amended theorem at a terminal error with the
check count past the threshold (stops, still without surfacing the error)
and at a timeout error (never stops). -/
theorem claim_C7_witness :
    (checkLocationFailure (.errorObj permissionMsg) 10).sessionStopped = true ∧
    (checkLocationFailure (.errorObj permissionMsg) 10).propagated = none ∧
    (checkLocationFailure (.errorObj timeoutMsg) 10).sessionStopped = false :=
  ⟨((claim_C7_checkLocation_error_policy (.errorObj permissionMsg) 10).2.1).mpr
      ⟨by norm_num,
        (claim_C7_checkLocation_error_policy (.errorObj permissionMsg) 10).2.2.1⟩,
    (claim_C7_checkLocation_error_policy (.errorObj permissionMsg) 10).1,
    by
      have h := (claim_C7_checkLocation_error_policy (.errorObj timeoutMsg) 10).2.1
      have hts := (claim_C7_checkLocation_error_policy
        (.errorObj timeoutMsg) 10).2.2.2.2
      rcases hb : (checkLocationFailure (.errorObj timeoutMsg) 10).sessionStopped with _ | _
      · rfl
      · exact absurd (h.mp hb).2 (by simp [hts])⟩

end

end HopOff
